import Mathlib

/-!
Shallow embedding of `RelayBoardController` from `src/main.py` (relay-board).

The controller wraps a serial connection to an 8-relay board.  We model:
  * the Python object state (`_serial`, `port`, `state`) as a `Controller`
    structure; Python ints are `Int` (unbounded, two's-complement bitwise
    semantics match `Int.lor` / `Int.land` / `Int.lnot`);
  * the serial handle as a record carrying its `is_open` flag;
  * transport I/O as an explicit event trace (`resetInput`, `write`, `read`),
    with the bytes the board answers passed in as an oracle argument `resp`
    (what `ser.read` returns: possibly empty on timeout);
  * raised exceptions as an `Except` result.  `SerialException` raised by
    `_ensure_connection` is `Err.notConnected`, the propagated
    `SerialException` of a failed `serial.Serial(...)` open is
    `Err.connectionError`, and `ValueError` for a bad channel is
    `Err.invalidChannel` (the spec's taxonomy names).

Every operation returns the result (or error), the controller state at the
moment of return/raise, and the list of transport events it performed, in
order.  Mutations in the Python code happen only after the points that can
raise, so returning the entry state on error is faithful.
-/

namespace Relay

/-- The serial handle (`serial.Serial`); we track the `is_open` flag. -/
structure Serial where
  is_open : Bool
deriving DecidableEq

/-- Object state of `RelayBoardController`: `_serial`, `port`, `state`. -/
structure Controller where
  serial : Option Serial
  port : Option String
  state : Int
deriving DecidableEq

/-- A transport I/O action on the serial port. -/
inductive Event where
  | resetInput : Event
  | write (bs : List Int) : Event
  | read (n : Nat) : Event
deriving DecidableEq

/-- The failure taxonomy (Python raises `SerialException` / `ValueError`). -/
inductive Err where
  | notConnected : Err
  | invalidChannel : Err
  | connectionError : Err
deriving DecidableEq

/-- `GET_STATES_CMD = 91`. -/
def GET_STATES_CMD : Int := 91

/-- `SET_STATES_CMD = 92`. -/
def SET_STATES_CMD : Int := 92

/-- `is_connected`: `self._serial is not None and self._serial.is_open`. -/
def is_connected (c : Controller) : Bool :=
  match c.serial with
  | none => false
  | some s => s.is_open

/-- `_ensure_connection`: raise `SerialException` unless the handle exists
and is open. -/
def ensure_connection (c : Controller) : Except Err Serial :=
  match c.serial with
  | none => .error .notConnected
  | some s => if s.is_open then .ok s else .error .notConnected

/-- `_send_command(command, payload, read_bytes)`: flush the input buffer,
write the command byte followed by the payload, and read `read_bytes` bytes
(`resp` is what the port returns; empty on timeout) or return `b""`.
Raises before any I/O when not connected. -/
def send_command (c : Controller) (command : Int) (payload : List Int)
    (read_bytes : Nat) (resp : List Int) : Except Err (List Int) × List Event :=
  match ensure_connection c with
  | .error e => (.error e, [])
  | .ok _ =>
    if read_bytes ≠ 0 then
      (.ok resp, [.resetInput, .write (command :: payload), .read read_bytes])
    else
      (.ok [], [.resetInput, .write (command :: payload)])

/-- `get_states()`: send `GET_STATES_CMD`, read one byte.  A non-empty
response updates the cache and is returned; an empty response returns
`None` leaving the cache alone. -/
def get_states (c : Controller) (resp : List Int) :
    Except Err (Option Int) × Controller × List Event :=
  match send_command c GET_STATES_CMD [] 1 resp with
  | (.error e, evs) => (.error e, c, evs)
  | (.ok response, evs) =>
    match response with
    | [] => (.ok none, c, evs)
    | b :: _ => (.ok (some b), { c with state := b }, evs)

/-- `set_states(state)`: send `SET_STATES_CMD` with payload `state & 0xFF`
(Python `&` on ints is `Int.emod _ 256` for the low byte), then cache and
return the masked value. -/
def set_states (c : Controller) (state : Int) :
    Except Err Int × Controller × List Event :=
  match send_command c SET_STATES_CMD [Int.emod state 256] 0 [] with
  | (.error e, evs) => (.error e, c, evs)
  | (.ok _, evs) =>
    (.ok (Int.emod state 256), { c with state := Int.emod state 256 }, evs)

/-- The bit-set / bit-clear expression of `set_channel` / `set_channels`:
`state | (1 << (channel - 1))` if `on` else `state & ~(1 << (channel - 1))`,
with Python's unbounded-int bitwise semantics. -/
def apply_channel (turn_on : Bool) (state channel : Int) : Int :=
  if turn_on then Int.lor state ((1 : Int) <<< (channel - 1))
  else Int.land state (Int.lnot ((1 : Int) <<< (channel - 1)))

/-- `set_channel(channel, on)`: validate `1 <= channel <= 8` (else raise
`ValueError`), compute the new mask from the cached state, delegate to
`set_states`. -/
def set_channel (c : Controller) (channel : Int) (turn_on : Bool) :
    Except Err Int × Controller × List Event :=
  if channel < 1 ∨ channel > 8 then (.error .invalidChannel, c, [])
  else set_states c (apply_channel turn_on c.state channel)

/-- The loop body of `set_channels`: walk the list, raising `ValueError` at
the first out-of-range channel, otherwise fold the bit operation. -/
def fold_channels (turn_on : Bool) (state : Int) : List Int → Except Err Int
  | [] => .ok state
  | ch :: rest =>
    if ch < 1 ∨ ch > 8 then .error .invalidChannel
    else fold_channels turn_on (apply_channel turn_on state ch) rest

/-- `set_channels(channels, on)`: fold the bit operation over the list
starting from the cached state (raising at the first invalid channel,
before any write), then issue a single `set_states` with the result. -/
def set_channels (c : Controller) (channels : List Int) (turn_on : Bool) :
    Except Err Int × Controller × List Event :=
  match fold_channels turn_on c.state channels with
  | .error e => (.error e, c, [])
  | .ok st => set_states c st

/-- `close()`: close the handle if open, then clear `_serial` and `port`.
No transport events are modelled for closing and it cannot fail. -/
def close (c : Controller) : Controller :=
  { c with serial := none, port := none }

/-- `connect(port)`: close any existing connection, open the port
(`openResult` is `some` handle on success, `none` when `serial.Serial`
raises), on failure clear the handle and port and propagate; on success
record the port, run the initial `get_states`, defaulting the cache to `0`
when it returns `None`, and return the cache. -/
def connect (c : Controller) (port : String) (openResult : Option Serial)
    (resp : List Int) : Except Err Int × Controller × List Event :=
  let c1 := close c
  match openResult with
  | none => (.error .connectionError, { c1 with serial := none, port := none }, [])
  | some ser =>
    let c2 := { c1 with serial := some ser, port := some port }
    match get_states c2 resp with
    | (.error e, c3, evs) => (.error e, c3, evs)
    | (.ok states, c3, evs) =>
      let c4 := { c3 with state := match states with | some s => s | none => 0 }
      (.ok c4.state, c4, evs)

instance : DecidableEq (Except Err Int) := fun a b =>
  match a, b with
  | .ok x, .ok y => if h : x = y then .isTrue (by simp [h]) else .isFalse (by simp [h])
  | .error x, .error y => if h : x = y then .isTrue (by simp [h]) else .isFalse (by simp [h])
  | .ok _, .error _ => .isFalse (by simp)
  | .error _, .ok _ => .isFalse (by simp)

instance : DecidableEq (Except Err (Option Int)) := fun a b =>
  match a, b with
  | .ok x, .ok y => if h : x = y then .isTrue (by simp [h]) else .isFalse (by simp [h])
  | .error x, .error y => if h : x = y then .isTrue (by simp [h]) else .isFalse (by simp [h])
  | .ok _, .error _ => .isFalse (by simp)
  | .error _, .ok _ => .isFalse (by simp)

/-- A fixed port name used to instantiate witnesses. -/
def thePort : String := "COM3"

/-! ### Bridging lemmas: Python int bitwise operations on nonnegative
operands, expressed through `Nat` operations that the kernel can evaluate. -/

theorem land_lnot_coe (s k : Nat) :
    Int.land (s : Int) (Int.lnot (k : Int)) = ((Nat.ldiff s k : Nat) : Int) := rfl

theorem lor_coe (s k : Nat) :
    Int.lor (s : Int) (k : Int) = ((s ||| k : Nat) : Int) := rfl

theorem one_shiftLeft_coe (n : Nat) :
    ((1 : Int) <<< ((n : Nat) : Int)) = ((1 <<< n : Nat) : Int) := by
  simpa using Int.shiftLeft_coe_nat 1 n

theorem lor_lt_two_pow {x y n : Nat} (hx : x < 2 ^ n) (hy : y < 2 ^ n) :
    x ||| y < 2 ^ n := by
  have := Nat.bitwise_lt_two_pow (f := Bool.or) hx hy
  simpa [Nat.lor] using this

theorem ldiff_lt_two_pow {x y n : Nat} (hx : x < 2 ^ n) (hy : y < 2 ^ n) :
    Nat.ldiff x y < 2 ^ n := by
  have := Nat.bitwise_lt_two_pow (f := fun a b => a && !b) hx hy
  simpa [Nat.ldiff] using this

/-- `apply_channel` on a nonnegative cached state and a channel in `1..8`
equals the corresponding `Nat` computation. -/
theorem apply_channel_eq_nat (b : Bool) (s : Nat) (ch : Int) (j : Nat)
    (hj : ch - 1 = (j : Int)) :
    apply_channel b (s : Int) ch =
      (((if b then s ||| (1 <<< j) else Nat.ldiff s (1 <<< j)) : Nat) : Int) := by
  unfold apply_channel
  rw [hj, one_shiftLeft_coe]
  cases b <;> simp [land_lnot_coe, lor_coe]

/-- The bit-set / bit-clear operation keeps the state inside `[0, 256)`. -/
theorem apply_channel_range (b : Bool) (s ch : Int) (hs0 : 0 ≤ s)
    (hs : s < 256) (h1 : 1 ≤ ch) (h8 : ch ≤ 8) :
    0 ≤ apply_channel b s ch ∧ apply_channel b s ch < 256 := by
  obtain ⟨s', rfl⟩ : ∃ s' : Nat, (s' : Int) = s :=
    ⟨s.toNat, Int.toNat_of_nonneg hs0⟩
  obtain ⟨j, hj⟩ : ∃ j : Nat, ch - 1 = (j : Int) :=
    ⟨(ch - 1).toNat, (Int.toNat_of_nonneg (by omega)).symm⟩
  have hjlt : j < 8 := by omega
  have hs' : s' < 256 := by exact_mod_cast hs
  have hpow : (1 <<< j) < 256 := by
    rw [Nat.one_shiftLeft]
    calc (2 : Nat) ^ j < 2 ^ 8 := Nat.pow_lt_pow_right (by omega) hjlt
    _ = 256 := by norm_num
  rw [apply_channel_eq_nat b s' ch j hj]
  cases b with
  | true =>
    refine ⟨by positivity, ?_⟩
    have : s' ||| (1 <<< j) < 256 := by
      have := lor_lt_two_pow (n := 8) (by simpa using hs') (by simpa using hpow)
      simpa using this
    simpa using (by exact_mod_cast this : ((s' ||| (1 <<< j) : Nat) : Int) < 256)
  | false =>
    refine ⟨by positivity, ?_⟩
    have : Nat.ldiff s' (1 <<< j) < 256 := by
      have := ldiff_lt_two_pow (n := 8) (by simpa using hs') (by simpa using hpow)
      simpa using this
    simpa using (by exact_mod_cast this : ((Nat.ldiff s' (1 <<< j) : Nat) : Int) < 256)

theorem emod_256_eq_self {a : Int} (h0 : 0 ≤ a) (h : a < 256) :
    Int.emod a 256 = a :=
  Int.emod_eq_of_lt h0 h

/-! ### Unfolding lemmas for the connected case. -/

/-- A connected controller's handle is exactly `some ⟨true⟩`. -/
theorem serial_of_connected {c : Controller} (h : is_connected c = true) :
    c.serial = some ⟨true⟩ := by
  unfold is_connected at h
  match hm : c.serial with
  | none => rw [hm] at h; exact absurd h (by simp)
  | some s => rw [hm] at h; cases s; simp_all

theorem ensure_connection_of_connected {c : Controller}
    (h : is_connected c = true) : ensure_connection c = .ok ⟨true⟩ := by
  unfold ensure_connection
  rw [serial_of_connected h]
  simp

theorem ensure_connection_of_disconnected {c : Controller}
    (h : is_connected c = false) : ensure_connection c = .error .notConnected := by
  unfold is_connected at h
  unfold ensure_connection
  match hm : c.serial with
  | none => simp
  | some s => rw [hm] at h; cases s; simp_all

/-- `set_states` on a connected controller: one write, unconditional cache
update to the low byte. -/
theorem set_states_connected {c : Controller} (st : Int)
    (h : is_connected c = true) :
    set_states c st =
      (.ok (Int.emod st 256), { c with state := Int.emod st 256 },
       [.resetInput, .write [SET_STATES_CMD, Int.emod st 256]]) := by
  unfold set_states send_command
  rw [ensure_connection_of_connected h]
  simp

/-- `fold_channels` over a list of valid channels is the plain fold. -/
theorem fold_channels_ok (b : Bool) (s : Int) (chs : List Int)
    (h : ∀ ch ∈ chs, 1 ≤ ch ∧ ch ≤ 8) :
    fold_channels b s chs = .ok (chs.foldl (fun st ch => apply_channel b st ch) s) := by
  induction chs generalizing s with
  | nil => rfl
  | cons ch rest ih =>
    have hch := h ch (by simp)
    have hrest : ∀ x ∈ rest, 1 ≤ x ∧ x ≤ 8 := fun x hx => h x (by simp [hx])
    unfold fold_channels
    rw [if_neg (by omega)]
    simpa using ih (apply_channel b s ch) hrest

/-- `fold_channels` raises at the first invalid channel. -/
theorem fold_channels_err (b : Bool) (s : Int) (chs : List Int)
    (h : ∃ ch ∈ chs, ch < 1 ∨ ch > 8) :
    fold_channels b s chs = .error .invalidChannel := by
  induction chs generalizing s with
  | nil => simp at h
  | cons ch rest ih =>
    unfold fold_channels
    by_cases hc : ch < 1 ∨ ch > 8
    · rw [if_pos hc]
    · rw [if_neg hc]
      apply ih
      rcases h with ⟨x, hx, hxr⟩
      rcases List.mem_cons.mp hx with rfl | hmem
      · exact absurd hxr hc
      · exact ⟨x, hmem, hxr⟩

/-- The fold of valid channel operations keeps the state inside `[0, 256)`. -/
theorem foldl_apply_channel_range (b : Bool) (s : Int) (chs : List Int)
    (hs0 : 0 ≤ s) (hs : s < 256) (h : ∀ ch ∈ chs, 1 ≤ ch ∧ ch ≤ 8) :
    0 ≤ chs.foldl (fun st ch => apply_channel b st ch) s ∧
      chs.foldl (fun st ch => apply_channel b st ch) s < 256 := by
  induction chs generalizing s with
  | nil => exact ⟨hs0, hs⟩
  | cons ch rest ih =>
    have hch := h ch (by simp)
    have hrest : ∀ x ∈ rest, 1 ≤ x ∧ x ≤ 8 := fun x hx => h x (by simp [hx])
    have hr := apply_channel_range b s ch hs0 hs hch.1 hch.2
    simpa using ih (apply_channel b s ch) hr.1 hr.2 hrest

theorem set_states_disconnected {c : Controller} (st : Int)
    (h : is_connected c = false) :
    set_states c st = (.error .notConnected, c, []) := by
  unfold set_states send_command
  rw [ensure_connection_of_disconnected h]

theorem get_states_disconnected {c : Controller} (resp : List Int)
    (h : is_connected c = false) :
    get_states c resp = (.error .notConnected, c, []) := by
  unfold get_states send_command
  rw [ensure_connection_of_disconnected h]

theorem get_states_connected_nil {c : Controller} (h : is_connected c = true) :
    get_states c [] =
      (.ok none, c, [.resetInput, .write [GET_STATES_CMD], .read 1]) := by
  unfold get_states send_command
  rw [ensure_connection_of_connected h]
  simp

theorem get_states_connected_cons {c : Controller} (b : Int) (rest : List Int)
    (h : is_connected c = true) :
    get_states c (b :: rest) =
      (.ok (some b), { c with state := b },
       [.resetInput, .write [GET_STATES_CMD], .read 1]) := by
  unfold get_states send_command
  rw [ensure_connection_of_connected h]
  simp

/-! ### Claim theorems. -/

/-- C5: on a connected controller, `readStates` returns the non-error
"no data" outcome (`none`) when the board supplies no byte, leaving the
cache unmutated, and on a received byte it updates the cache to that byte
and returns it. -/
theorem get_states_cache (c : Controller) (b : Int)
    (hconn : is_connected c = true) :
    get_states c [] =
      (.ok none, c, [.resetInput, .write [GET_STATES_CMD], .read 1]) ∧
    get_states c [b] =
      (.ok (some b), { c with state := b },
       [.resetInput, .write [GET_STATES_CMD], .read 1]) :=
  ⟨get_states_connected_nil hconn, get_states_connected_cons b [] hconn⟩

/-- Witness for C5 at a concrete connected controller with cache `7`:
an empty response leaves the cache at `7`, a response byte `3` replaces it. -/
theorem get_states_cache_witness :
    is_connected ⟨some ⟨true⟩, some thePort, 7⟩ = true ∧
    get_states ⟨some ⟨true⟩, some thePort, 7⟩ [] =
      (.ok none, ⟨some ⟨true⟩, some thePort, 7⟩,
       [.resetInput, .write [GET_STATES_CMD], .read 1]) ∧
    get_states ⟨some ⟨true⟩, some thePort, 7⟩ [3] =
      (.ok (some 3), ⟨some ⟨true⟩, some thePort, 3⟩,
       [.resetInput, .write [GET_STATES_CMD], .read 1]) := by
  have h := get_states_cache ⟨some ⟨true⟩, some thePort, 7⟩ 3 rfl
  exact ⟨rfl, h.1, h.2⟩

/-- C6: on a connected controller, `writeStates(state)` sends exactly one
payload byte, the low 8 bits of `state`, reads nothing back, and
unconditionally caches and returns that masked value. -/
theorem set_states_masks_and_caches (c : Controller) (state : Int)
    (hconn : is_connected c = true) :
    set_states c state =
      (.ok (Int.emod state 256), { c with state := Int.emod state 256 },
       [.resetInput, .write [SET_STATES_CMD, Int.emod state 256]]) :=
  set_states_connected state hconn

/-- Witness for C6: `writeStates(0b10110000)` caches and returns
`0b10110000 = 176`, with a single write of `[92, 176]` and no read;
`writeStates(0x1FF)` silently discards the high bits and caches `0xFF`. -/
theorem set_states_masks_and_caches_witness :
    is_connected ⟨some ⟨true⟩, some thePort, 0⟩ = true ∧
    set_states ⟨some ⟨true⟩, some thePort, 0⟩ 176 =
      (.ok 176, ⟨some ⟨true⟩, some thePort, 176⟩,
       [.resetInput, .write [SET_STATES_CMD, 176]]) ∧
    set_states ⟨some ⟨true⟩, some thePort, 0⟩ 511 =
      (.ok 255, ⟨some ⟨true⟩, some thePort, 255⟩,
       [.resetInput, .write [SET_STATES_CMD, 255]]) :=
  ⟨rfl, (set_states_masks_and_caches ⟨some ⟨true⟩, some thePort, 0⟩ 176 rfl).trans
      (by decide),
    (set_states_masks_and_caches ⟨some ⟨true⟩, some thePort, 0⟩ 511 rfl).trans
      (by decide)⟩

/-- C7: when the port opens but the initial get-states read yields no data,
`connect` does not fail: it caches all-OFF (`0`) and returns that value. -/
theorem connect_defaults_zero (c : Controller) (port : String) :
    connect c port (some ⟨true⟩) [] =
      (.ok 0, ⟨some ⟨true⟩, some port, 0⟩,
       [.resetInput, .write [GET_STATES_CMD], .read 1]) := by
  unfold connect close
  simp only
  rw [get_states_connected_nil (c := ⟨some ⟨true⟩, some port, c.state⟩) rfl]

/-- C8: when the transport open fails, `connect` fails with
`ConnectionError`, discards the handle (and port), leaves the cache alone,
performs no I/O, and the controller afterwards reports not connected. -/
theorem connect_open_failure (c : Controller) (port : String) (resp : List Int) :
    connect c port none resp =
      (.error .connectionError, ⟨none, none, c.state⟩, []) ∧
    is_connected ⟨none, none, c.state⟩ = false :=
  ⟨rfl, rfl⟩

/-- C1: on a connected controller with an 8-bit cache, `setChannels` over
valid channels folds the bit-set (or bit-clear) operation across the list
starting from the cached state and issues exactly one write, with the
combined mask as the single payload byte; the cache becomes that mask. -/
theorem set_channels_batches_single_write (c : Controller)
    (channels : List Int) (b : Bool) (hconn : is_connected c = true)
    (hs0 : 0 ≤ c.state) (hs : c.state < 256)
    (hch : ∀ ch ∈ channels, 1 ≤ ch ∧ ch ≤ 8) :
    set_channels c channels b =
      (.ok (channels.foldl (fun st ch => apply_channel b st ch) c.state),
       { c with state := channels.foldl (fun st ch => apply_channel b st ch) c.state },
       [.resetInput, .write [SET_STATES_CMD,
          channels.foldl (fun st ch => apply_channel b st ch) c.state]]) := by
  have hrange := foldl_apply_channel_range b c.state channels hs0 hs hch
  unfold set_channels
  rw [fold_channels_ok b c.state channels hch]
  simp only
  rw [set_states_connected _ hconn, emod_256_eq_self hrange.1 hrange.2]

/-- Witness for C1: from cache `0`, `setChannels([2,4,6], true)` issues one
write with payload `0x2A = 42` and the cache becomes `42`. -/
theorem set_channels_batches_single_write_witness :
    is_connected ⟨some ⟨true⟩, some thePort, 0⟩ = true ∧
    set_channels ⟨some ⟨true⟩, some thePort, 0⟩ [2, 4, 6] true =
      (.ok 42, ⟨some ⟨true⟩, some thePort, 42⟩,
       [.resetInput, .write [SET_STATES_CMD, 42]]) :=
  ⟨rfl, (set_channels_batches_single_write ⟨some ⟨true⟩, some thePort, 0⟩
      [2, 4, 6] true rfl (by decide) (by decide) (by decide)).trans (by decide)⟩

/-- C2: on a connected controller with an 8-bit cache `s` and channel
`ch ∈ 1..8`, `setChannel(ch, true)` writes and caches
`s | (1 << (ch-1))`, and `setChannel(ch, false)` writes and caches
`s & ~(1 << (ch-1))` (already an 8-bit value, so the re-mask is the
identity). -/
theorem set_channel_masks (c : Controller) (ch : Int)
    (hconn : is_connected c = true) (hs0 : 0 ≤ c.state) (hs : c.state < 256)
    (h1 : 1 ≤ ch) (h8 : ch ≤ 8) :
    set_channel c ch true =
      (.ok (Int.lor c.state ((1 : Int) <<< (ch - 1))),
       { c with state := Int.lor c.state ((1 : Int) <<< (ch - 1)) },
       [.resetInput, .write [SET_STATES_CMD,
          Int.lor c.state ((1 : Int) <<< (ch - 1))]]) ∧
    set_channel c ch false =
      (.ok (Int.land c.state (Int.lnot ((1 : Int) <<< (ch - 1)))),
       { c with state := Int.land c.state (Int.lnot ((1 : Int) <<< (ch - 1))) },
       [.resetInput, .write [SET_STATES_CMD,
          Int.land c.state (Int.lnot ((1 : Int) <<< (ch - 1)))]]) := by
  have ht := apply_channel_range true c.state ch hs0 hs h1 h8
  have hf := apply_channel_range false c.state ch hs0 hs h1 h8
  constructor <;>
    · unfold set_channel
      rw [if_neg (by omega)]
      first
        | rw [set_states_connected _ hconn, emod_256_eq_self ht.1 ht.2]
          simp [apply_channel]
        | rw [set_states_connected _ hconn, emod_256_eq_self hf.1 hf.2]
          simp [apply_channel]

/-- Witness for C2 at cache `7`, channel `2`: turning on yields
`7 | 2 = 7`, turning off yields `7 & ~2 = 5`. -/
theorem set_channel_masks_witness :
    is_connected ⟨some ⟨true⟩, some thePort, 7⟩ = true ∧
    set_channel ⟨some ⟨true⟩, some thePort, 7⟩ 2 true =
      (.ok 7, ⟨some ⟨true⟩, some thePort, 7⟩,
       [.resetInput, .write [SET_STATES_CMD, 7]]) ∧
    set_channel ⟨some ⟨true⟩, some thePort, 7⟩ 2 false =
      (.ok 5, ⟨some ⟨true⟩, some thePort, 5⟩,
       [.resetInput, .write [SET_STATES_CMD, 5]]) := by
  have h := set_channel_masks ⟨some ⟨true⟩, some thePort, 7⟩ 2 rfl
    (by decide) (by decide) (by decide) (by decide)
  have hval : Int.land (7 : Int) (Int.lnot ((1 : Int) <<< ((2 : Int) - 1))) = 5 := by
    rw [show ((1 : Int) <<< ((2 : Int) - 1)) = (((2 : Nat) : Int)) by decide]
    rw [show (7 : Int) = ((7 : Nat) : Int) by decide]
    rw [land_lnot_coe]
    simp [Nat.ldiff, Nat.bitwise]
  refine ⟨rfl, h.1.trans (by decide), h.2.trans ?_⟩
  have h2 := h.2
  simp only [show Controller.state ⟨some ⟨true⟩, some thePort, 7⟩ = (7 : Int) from rfl] at h2 ⊢
  rw [hval]

/-- C3: an out-of-range channel makes `setChannel` fail with
`InvalidChannelError`, and any list containing an out-of-range entry makes
`setChannels` fail with `InvalidChannelError`; in both cases the
controller (in particular its cache) is unchanged and no transport I/O
happens. -/
theorem invalid_channel_rejected (c : Controller) (ch : Int) (b : Bool)
    (channels : List Int) (hch : ch < 1 ∨ ch > 8)
    (hlist : ∃ x ∈ channels, x < 1 ∨ x > 8) :
    set_channel c ch b = (.error .invalidChannel, c, []) ∧
    set_channels c channels b = (.error .invalidChannel, c, []) := by
  constructor
  · unfold set_channel
    rw [if_pos hch]
  · unfold set_channels
    rw [fold_channels_err b c.state channels hlist]

/-- Witness for C3: `setChannel(0, true)` and `setChannels([2, 9], true)`
on a connected controller with cache `7` both fail with
`InvalidChannelError`, leave the controller unchanged, and perform no
I/O. -/
theorem invalid_channel_rejected_witness :
    ((0 : Int) < 1 ∨ (0 : Int) > 8) ∧
    set_channel ⟨some ⟨true⟩, some thePort, 7⟩ 0 true =
      (.error .invalidChannel, ⟨some ⟨true⟩, some thePort, 7⟩, []) ∧
    set_channels ⟨some ⟨true⟩, some thePort, 7⟩ [2, 9] true =
      (.error .invalidChannel, ⟨some ⟨true⟩, some thePort, 7⟩, []) := by
  have h := invalid_channel_rejected ⟨some ⟨true⟩, some thePort, 7⟩ 0 true
    [2, 9] (by decide) (by decide)
  exact ⟨by decide, h.1, h.2⟩

/-- C10: on a connected controller with a valid channel, `setChannel(ch, b)`
and `setChannels([ch], b)` are observationally equivalent: same returned
mask, same resulting cache, same single write. -/
theorem set_channel_refines_set_channels (c : Controller) (ch : Int)
    (b : Bool) (hconn : is_connected c = true) (h1 : 1 ≤ ch) (h8 : ch ≤ 8) :
    ∃ m : Int, ∃ c' : Controller,
      set_channel c ch b =
        (.ok m, c', [.resetInput, .write [SET_STATES_CMD, m]]) ∧
      set_channels c [ch] b =
        (.ok m, c', [.resetInput, .write [SET_STATES_CMD, m]]) := by
  refine ⟨Int.emod (apply_channel b c.state ch) 256,
    { c with state := Int.emod (apply_channel b c.state ch) 256 }, ?_, ?_⟩
  · unfold set_channel
    rw [if_neg (by omega), set_states_connected _ hconn]
  · unfold set_channels fold_channels
    rw [if_neg (by omega)]
    simp only [fold_channels]
    rw [set_states_connected _ hconn]

/-- Witness for C10 at cache `0`, channel `1`, `on = true`: both paths
return mask `1`, cache `1`, and a single write `[92, 1]`. -/
theorem set_channel_refines_set_channels_witness :
    ∃ m : Int, ∃ c' : Controller,
      set_channel ⟨some ⟨true⟩, some thePort, 0⟩ 1 true =
        (.ok m, c', [.resetInput, .write [SET_STATES_CMD, m]]) ∧
      set_channels ⟨some ⟨true⟩, some thePort, 0⟩ [1] true =
        (.ok m, c', [.resetInput, .write [SET_STATES_CMD, m]]) :=
  set_channel_refines_set_channels ⟨some ⟨true⟩, some thePort, 0⟩ 1 true rfl
    (by decide) (by decide)

/-- C4 counterexample: on a disconnected controller, `setChannel(0, true)`
fails with `InvalidChannelError`, not `NotConnectedError` — channel
validation precedes the connection check — refuting "every call to ...
setChannel ... fails with NotConnectedError" as stated. -/
theorem not_connected_cex :
    is_connected ⟨none, none, 0⟩ = false ∧
    set_channel ⟨none, none, 0⟩ 0 true =
      (.error .invalidChannel, ⟨none, none, 0⟩, []) ∧
    Err.invalidChannel ≠ Err.notConnected := by
  refine ⟨rfl, by decide, by decide⟩

/-- C4 (amended): on a disconnected controller, `readStates` and
`writeStates` fail with `NotConnectedError`; `setChannel` and
`setChannels` also fail — with `InvalidChannelError` when the channel
argument is out of range (validation runs first) and with
`NotConnectedError` otherwise; in every case no transport I/O is performed
and the controller (cache and connection state) is unchanged. -/
theorem not_connected_no_effect (c : Controller) (resp : List Int)
    (st ch : Int) (b : Bool) (channels : List Int)
    (h : is_connected c = false) :
    get_states c resp = (.error .notConnected, c, []) ∧
    set_states c st = (.error .notConnected, c, []) ∧
    set_channel c ch b =
      (.error (if ch < 1 ∨ ch > 8 then .invalidChannel else .notConnected),
       c, []) ∧
    set_channels c channels b =
      (.error (if ∃ x ∈ channels, x < 1 ∨ x > 8 then .invalidChannel
               else .notConnected), c, []) := by
  refine ⟨get_states_disconnected resp h, set_states_disconnected st h, ?_, ?_⟩
  · by_cases hch : ch < 1 ∨ ch > 8
    · rw [if_pos hch]
      unfold set_channel
      rw [if_pos hch]
    · rw [if_neg hch]
      unfold set_channel
      rw [if_neg hch, set_states_disconnected _ h]
  · by_cases hl : ∃ x ∈ channels, x < 1 ∨ x > 8
    · rw [if_pos hl]
      unfold set_channels
      rw [fold_channels_err b c.state channels hl]
    · rw [if_neg hl]
      push_neg at hl
      unfold set_channels
      rw [fold_channels_ok b c.state channels (fun x hx => by
        have := hl x hx
        omega)]
      simp only
      rw [set_states_disconnected _ h]

/-- Witness for the amended C4 on a disconnected controller with cache `5`:
read, write, and a valid-channel `setChannel(2, true)` fail with
`NotConnectedError`, while `setChannels([2, 9], true)` fails with
`InvalidChannelError`; every call leaves the controller untouched and does
no I/O. -/
theorem not_connected_no_effect_witness :
    is_connected ⟨none, none, 5⟩ = false ∧
    get_states ⟨none, none, 5⟩ [3] = (.error .notConnected, ⟨none, none, 5⟩, []) ∧
    set_states ⟨none, none, 5⟩ 7 = (.error .notConnected, ⟨none, none, 5⟩, []) ∧
    set_channel ⟨none, none, 5⟩ 2 true =
      (.error .notConnected, ⟨none, none, 5⟩, []) ∧
    set_channels ⟨none, none, 5⟩ [2, 9] true =
      (.error .invalidChannel, ⟨none, none, 5⟩, []) := by
  have h := not_connected_no_effect ⟨none, none, 5⟩ [3] 7 2 true [2, 9] rfl
  exact ⟨rfl, h.1, h.2.1, h.2.2.1.trans (by decide), h.2.2.2.trans (by decide)⟩

/-- C9 counterexample: `connect` itself mutates the cache.  Starting from a
closed controller whose cache is `5`, a successful open whose initial read
yields no data leaves the cache at `0`: the value changed although no
set-states write was sent (the only write is the get-states command byte)
and the read produced no response byte, so neither `writeStates` nor a
successful `readStates` performed the mutation. -/
theorem cache_mutation_cex :
    (connect ⟨none, none, 5⟩ thePort (some ⟨true⟩) []).2.1.state = 0 ∧
    (connect ⟨none, none, 5⟩ thePort (some ⟨true⟩) []).1 = .ok 0 ∧
    (connect ⟨none, none, 5⟩ thePort (some ⟨true⟩) []).2.2 =
      [.resetInput, .write [GET_STATES_CMD], .read 1] ∧
    (5 : Int) ≠ 0 := by
  refine ⟨by decide, by decide, by decide, by decide⟩

/-- C9 (amended): the cache is mutated only by `writeStates` (on success,
to the masked payload), by `readStates` (on a successful response, to the
response byte), and by `connect` (which re-initializes it from the initial
read, defaulting to `0` on no data); `close` and every failing operation
leave it unchanged, and each mutation replaces it atomically with a whole
value. -/
theorem cache_mutation_frame (c : Controller) (bb : Int) (rest : List Int)
    (st ch : Int) (b : Bool) (channels : List Int) (port : String) :
    (close c).state = c.state ∧
    (get_states c []).2.1 = c ∧
    ((get_states c (bb :: rest)).2.1.state = c.state ∨
      ((get_states c (bb :: rest)).1 = .ok (some bb) ∧
        (get_states c (bb :: rest)).2.1.state = bb)) ∧
    ((set_states c st).2.1.state = c.state ∨
      ((set_states c st).1 = .ok (Int.emod st 256) ∧
        (set_states c st).2.1.state = Int.emod st 256)) ∧
    ((set_channel c ch b).2.1.state = c.state ∨
      ∃ m, (set_channel c ch b).1 = .ok m ∧
        (set_channel c ch b).2.1.state = m) ∧
    ((set_channels c channels b).2.1.state = c.state ∨
      ∃ m, (set_channels c channels b).1 = .ok m ∧
        (set_channels c channels b).2.1.state = m) ∧
    (connect c port none rest).2.1.state = c.state ∧
    (connect c port (some ⟨false⟩) rest).2.1.state = c.state ∧
    (connect c port (some ⟨true⟩) []).2.1.state = 0 ∧
    (connect c port (some ⟨true⟩) (bb :: rest)).2.1.state = bb := by
  by_cases h : is_connected c = true
  · refine ⟨rfl, ?_, ?_, ?_, ?_, ?_, rfl, rfl, ?_, ?_⟩
    · rw [get_states_connected_nil h]
    · right
      rw [get_states_connected_cons bb rest h]
      exact ⟨rfl, rfl⟩
    · right
      rw [set_states_connected st h]
      exact ⟨rfl, rfl⟩
    · by_cases hch : ch < 1 ∨ ch > 8
      · left
        unfold set_channel
        rw [if_pos hch]
      · right
        unfold set_channel
        rw [if_neg hch, set_states_connected _ h]
        exact ⟨_, rfl, rfl⟩
    · by_cases hl : ∃ x ∈ channels, x < 1 ∨ x > 8
      · left
        unfold set_channels
        rw [fold_channels_err b c.state channels hl]
      · right
        push_neg at hl
        unfold set_channels
        rw [fold_channels_ok b c.state channels (fun x hx => by
          have := hl x hx
          omega)]
        simp only
        rw [set_states_connected _ h]
        exact ⟨_, rfl, rfl⟩
    · unfold connect close
      simp only
      rw [get_states_connected_nil (c := ⟨some ⟨true⟩, some port, c.state⟩) rfl]
    · unfold connect close
      simp only
      rw [get_states_connected_cons (c := ⟨some ⟨true⟩, some port, c.state⟩)
        bb rest rfl]
  · have hf : is_connected c = false := by
      cases hic : is_connected c
      · rfl
      · exact absurd hic h
    refine ⟨rfl, ?_, ?_, ?_, ?_, ?_, rfl, rfl, ?_, ?_⟩
    · rw [get_states_disconnected [] hf]
    · left
      rw [get_states_disconnected (bb :: rest) hf]
    · left
      rw [set_states_disconnected st hf]
    · by_cases hch : ch < 1 ∨ ch > 8
      · left
        unfold set_channel
        rw [if_pos hch]
      · left
        unfold set_channel
        rw [if_neg hch, set_states_disconnected _ hf]
    · by_cases hl : ∃ x ∈ channels, x < 1 ∨ x > 8
      · left
        unfold set_channels
        rw [fold_channels_err b c.state channels hl]
      · left
        push_neg at hl
        unfold set_channels
        rw [fold_channels_ok b c.state channels (fun x hx => by
          have := hl x hx
          omega)]
        simp only
        rw [set_states_disconnected _ hf]
    · unfold connect close
      simp only
      rw [get_states_connected_nil (c := ⟨some ⟨true⟩, some port, c.state⟩) rfl]
    · unfold connect close
      simp only
      rw [get_states_connected_cons (c := ⟨some ⟨true⟩, some port, c.state⟩)
        bb rest rfl]

end Relay
